import Mathlib

/-!
Verification of the BCI Nowcasting Tool scenario valuation engine
(`services/calculator.py`, `utils/validators.py`, `app.py`).

Shallow embedding conventions:
* Calendar dates are modelled as integer day numbers, so that Python's
  `(end_date - start_date).days` becomes plain integer subtraction and
  date comparison becomes integer comparison.
* Python floats are idealised as real numbers; a Python value that may be
  `float` or `complex` is modelled as a complex number (a real float is a
  complex number with zero imaginary part).
* Python exceptions are modelled with `Except`: the only arithmetic
  exception reachable in this code is `ZeroDivisionError`, raised by
  `0.0 ** e` for `e < 0`.  For a negative base and any exponent Python 3
  does not raise: it computes the principal-branch complex power.
-/

open scoped Classical

noncomputable section

/-- Exceptions that Python float exponentiation can raise. -/
inductive PyErr where
  | zeroDivisionError
deriving DecidableEq

/-- Models Python 3 float exponentiation `b ** e`:
`0.0 ** e` with `e < 0` raises `ZeroDivisionError`; a negative base is
raised to the power via the principal complex branch (Python 3 returns a
`complex` result rather than raising); a nonnegative base gives the usual
real power (`0 ** 0 = 1`, matching Python). -/
def pyFloatPow (b e : ℝ) : Except PyErr ℂ :=
  if b = 0 ∧ e < 0 then .error .zeroDivisionError
  else if b < 0 then .ok ((b : ℂ) ^ (e : ℂ))
  else .ok (((b ^ e : ℝ) : ℂ))

/-- `CashflowItem` dataclass from `services/calculator.py`. -/
structure CashflowItem where
  amount : ℝ
  month : ℤ
  description : String
  cashflow_date : Option ℤ := none

/-- `CashflowFVItem` dataclass from `services/calculator.py`. -/
structure CashflowFVItem where
  amount : ℝ
  month : ℤ
  description : String
  fv_downside : ℂ
  fv_base : ℂ
  fv_upside : ℂ

/-- `ScenarioResult` dataclass from `services/calculator.py`. -/
structure ScenarioResult where
  portfolio_fv : ℂ
  cashflow_fv : ℂ
  total_fv : ℂ
  rate : ℝ
  scenario_name : String
  cashflow_details : Option (List CashflowFVItem) := none

/-- `PortfolioCalculator.calculate_future_value_excel_formula`
(`services/calculator.py` lines 50-82): if the rate is zero return the
present value unchanged, otherwise compute
`present_value * (1 + rate/100) ** ((end_date - start_date).days / 365)`
with Python float exponentiation. -/
def calculate_future_value_excel_formula
    (present_value annual_rate : ℝ) (start_date end_date : ℤ) :
    Except PyErr ℂ :=
  if annual_rate = 0 then .ok ((present_value : ℝ) : ℂ)
  else
    let rate_decimal := annual_rate / 100
    let days_diff := end_date - start_date
    (pyFloatPow (1 + rate_decimal) ((days_diff : ℝ) / 365)).map
      (fun p => (present_value : ℂ) * p)

/-- `PortfolioCalculator.calculate_future_value`
(`services/calculator.py` lines 84-95): legacy monthly compounding,
`present_value * (1 + rate/100/12) ** months`, with the same zero-rate
short-circuit.  The month count is a natural number (the app passes a
positive month horizon). -/
def calculate_future_value (present_value annual_rate : ℝ) (months : ℕ) : ℝ :=
  if annual_rate = 0 then present_value
  else
    let monthly_rate := annual_rate / 100 / 12
    present_value * (1 + monthly_rate) ^ months

/-- `PortfolioCalculator.calculate_cashflow_future_value_excel`
(`services/calculator.py` lines 97-129): a dateless cashflow or one dated
on/after the end date is returned at its raw amount; otherwise it is
compounded from its own date to the end date. -/
def calculate_cashflow_future_value_excel
    (cashflow : CashflowItem) (annual_rate : ℝ) (end_date : ℤ) :
    Except PyErr ℂ :=
  match cashflow.cashflow_date with
  | none => .ok ((cashflow.amount : ℝ) : ℂ)
  | some cashflow_date =>
    if end_date ≤ cashflow_date then .ok ((cashflow.amount : ℝ) : ℂ)
    else calculate_future_value_excel_formula
      cashflow.amount annual_rate cashflow_date end_date

/-- The cashflow accumulation loop of
`PortfolioCalculator.calculate_scenario_excel`
(`services/calculator.py` lines 206-211): zero-amount cashflows are
skipped, the rest are valued and summed; an exception propagates. -/
def cashflowFVLoop
    (cashflows : List CashflowItem) (annual_rate : ℝ) (end_date : ℤ)
    (acc : ℂ) : Except PyErr ℂ :=
  match cashflows with
  | [] => .ok acc
  | cashflow :: rest =>
    if cashflow.amount ≠ 0 then
      match calculate_cashflow_future_value_excel cashflow annual_rate end_date with
      | .error e => .error e
      | .ok cf_fv => cashflowFVLoop rest annual_rate end_date (acc + cf_fv)
    else cashflowFVLoop rest annual_rate end_date acc

/-- `PortfolioCalculator.calculate_scenario_excel`
(`services/calculator.py` lines 176-229): portfolio future value plus the
summed cashflow future values; any exception is re-raised unchanged
(the `except` clause logs and re-raises). -/
def calculate_scenario_excel
    (beginning_mv : ℝ) (start_date end_date : ℤ) (annual_rate : ℝ)
    (cashflows : List CashflowItem) (scenario_name : String) :
    Except PyErr ScenarioResult :=
  match calculate_future_value_excel_formula beginning_mv annual_rate start_date end_date with
  | .error e => .error e
  | .ok portfolio_fv =>
    match cashflowFVLoop cashflows annual_rate end_date 0 with
    | .error e => .error e
    | .ok cashflow_fv =>
      .ok { portfolio_fv := portfolio_fv, cashflow_fv := cashflow_fv,
            total_fv := portfolio_fv + cashflow_fv, rate := annual_rate,
            scenario_name := scenario_name, cashflow_details := none }

/-- Python `dict.get(key, dflt)` on a string-keyed rate dictionary,
modelled on an association list (Python dict keys are unique). -/
def dictGet (d : List (String × ℝ)) (key : String) (dflt : ℝ) : ℝ :=
  match d with
  | [] => dflt
  | (k, v) :: rest => if k = key then v else dictGet rest key dflt

/-- The per-cashflow precomputation loop of
`PortfolioCalculator.calculate_all_scenarios_excel`
(`services/calculator.py` lines 291-304): every cashflow is valued under
the `downside`, `base` and `upside` rates (defaulting to 0 when a name is
missing); this loop is outside any `try`, so an exception propagates. -/
def cashflowDetailsLoop
    (cashflows : List CashflowItem) (scenarios : List (String × ℝ))
    (end_date : ℤ) (acc : List CashflowFVItem) :
    Except PyErr (List CashflowFVItem) :=
  match cashflows with
  | [] => .ok acc
  | cashflow :: rest =>
    match calculate_cashflow_future_value_excel cashflow (dictGet scenarios "downside" 0) end_date with
    | .error e => .error e
    | .ok fv_downside =>
    match calculate_cashflow_future_value_excel cashflow (dictGet scenarios "base" 0) end_date with
    | .error e => .error e
    | .ok fv_base =>
    match calculate_cashflow_future_value_excel cashflow (dictGet scenarios "upside" 0) end_date with
    | .error e => .error e
    | .ok fv_upside =>
      cashflowDetailsLoop rest scenarios end_date
        (acc ++ [{ amount := cashflow.amount, month := cashflow.month,
                   description := cashflow.description,
                   fv_downside := fv_downside, fv_base := fv_base,
                   fv_upside := fv_upside }])

/-- The per-scenario cashflow total of
`PortfolioCalculator.calculate_all_scenarios_excel`
(`services/calculator.py` lines 313-320): add the precomputed future
value matching the scenario name; unknown names accumulate nothing. -/
def scenarioCashflowSum
    (scenario_name : String) (details : List CashflowFVItem) (acc : ℂ) : ℂ :=
  match details with
  | [] => acc
  | d :: rest =>
    if scenario_name = "downside" then
      scenarioCashflowSum scenario_name rest (acc + d.fv_downside)
    else if scenario_name = "base" then
      scenarioCashflowSum scenario_name rest (acc + d.fv_base)
    else if scenario_name = "upside" then
      scenarioCashflowSum scenario_name rest (acc + d.fv_upside)
    else scenarioCashflowSum scenario_name rest acc

/-- The body of the per-scenario `try` block of
`PortfolioCalculator.calculate_all_scenarios_excel`
(`services/calculator.py` lines 308-332): portfolio future value via the
Excel formula, plus the precomputed cashflow totals, packaged with the
shared itemisation attached. -/
def scenarioAttempt
    (beginning_mv : ℝ) (start_date end_date : ℤ) (annual_rate : ℝ)
    (scenario_name : String) (cashflow_fv_details : List CashflowFVItem) :
    Except PyErr ScenarioResult :=
  match calculate_future_value_excel_formula beginning_mv annual_rate start_date end_date with
  | .error e => .error e
  | .ok portfolio_fv =>
    let total_cashflow_fv := scenarioCashflowSum scenario_name cashflow_fv_details 0
    .ok { portfolio_fv := portfolio_fv, cashflow_fv := total_cashflow_fv,
          total_fv := portfolio_fv + total_cashflow_fv, rate := annual_rate,
          scenario_name := scenario_name,
          cashflow_details := some cashflow_fv_details }

/-- The scenario loop of
`PortfolioCalculator.calculate_all_scenarios_excel`
(`services/calculator.py` lines 307-336): each scenario is attempted; on
an exception the scenario is skipped (`except ... continue`), otherwise
its result is appended under its name. -/
def scenariosLoop
    (beginning_mv : ℝ) (start_date end_date : ℤ)
    (cashflow_fv_details : List CashflowFVItem)
    (scenarios : List (String × ℝ))
    (results : List (String × ScenarioResult)) :
    List (String × ScenarioResult) :=
  match scenarios with
  | [] => results
  | (scenario_name, annual_rate) :: rest =>
    match scenarioAttempt beginning_mv start_date end_date annual_rate
        scenario_name cashflow_fv_details with
    | .ok r =>
      scenariosLoop beginning_mv start_date end_date cashflow_fv_details rest
        (results ++ [(scenario_name, r)])
    | .error _ =>
      scenariosLoop beginning_mv start_date end_date cashflow_fv_details rest results

/-- `PortfolioCalculator.calculate_all_scenarios_excel`
(`services/calculator.py` lines 267-339): the shared per-cashflow
itemisation is computed once, then each scenario is attempted with the
partial-failure policy of the scenario loop. -/
def calculate_all_scenarios_excel
    (beginning_mv : ℝ) (start_date end_date : ℤ)
    (scenarios : List (String × ℝ)) (cashflows : List CashflowItem) :
    Except PyErr (List (String × ScenarioResult)) :=
  match cashflowDetailsLoop cashflows scenarios end_date [] with
  | .error e => .error e
  | .ok cashflow_fv_details =>
    .ok (scenariosLoop beginning_mv start_date end_date cashflow_fv_details
      scenarios [])

/-- Spec-side selector: the future value of one itemised cashflow
projection under a named scenario (`future_value_per_scenario[s]` in the
spec data model); names other than the three known ones contribute 0. -/
def projectionFV (scenario_name : String) (d : CashflowFVItem) : ℂ :=
  if scenario_name = "downside" then d.fv_downside
  else if scenario_name = "base" then d.fv_base
  else if scenario_name = "upside" then d.fv_upside
  else 0

/-- Result dictionary of the validators in `utils/validators.py`. -/
structure ValidationResult where
  valid : Bool
  errors : List String

/-- `validate_date_inputs` from `utils/validators.py` lines 222-281.
`today` models `date.today()`; dates are day numbers, `None` is `none`.
The error strings and their order follow the source. -/
def validate_date_inputs
    (today : ℤ) (group_code : Option String)
    (start_date end_date : Option ℤ) : ValidationResult :=
  let group_errors :=
    match group_code with
    | none => ["Group code is required"]
    | some gc =>
      if gc.trim = "" then ["Group code is required"]
      else if 50 < gc.trim.length then ["Group code must be 50 characters or less"]
      else []
  let start_missing := if start_date = none then ["Start date is required"] else []
  let end_missing := if end_date = none then ["End date is required"] else []
  let range_errors :=
    match start_date, end_date with
    | some s, some e =>
      (if e ≤ s then ["Start date must be before end date"] else []) ++
      (if s < today - 365 * 10 then ["Start date cannot be more than 10 years in the past"] else []) ++
      (if today + 365 * 2 < e then ["End date cannot be more than 2 years in the future"] else []) ++
      (if e - s < 1 then ["Period must be at least 1 day long"] else [])
    | _, _ => []
  let errors := group_errors ++ start_missing ++ end_missing ++ range_errors
  { valid := errors.isEmpty, errors := errors }

end

/-! ## Helper lemmas -/

/-- The day-count formula at a positive compounding base `1 + r/100`
(that is, `-100 < r`): no exception, and the value is the real power
`pv * (1 + r/100) ^ (days/365)`.  The zero-rate branch agrees because
`1 ^ x = 1`. -/
theorem fv_formula_pos_base (pv r : ℝ) (s e : ℤ) (hr : -100 < r) :
    calculate_future_value_excel_formula pv r s e =
      .ok (((pv * (1 + r / 100) ^ (((e - s : ℤ) : ℝ) / 365) : ℝ)) : ℂ) := by
  have hb : (0 : ℝ) < 1 + r / 100 := by linarith
  unfold calculate_future_value_excel_formula
  by_cases h0 : r = 0
  · subst h0
    rw [if_pos rfl]
    norm_num [Real.one_rpow]
  · rw [if_neg h0]
    dsimp only
    unfold pyFloatPow
    rw [if_neg (by push_neg; intro hb0; exact absurd hb0 (ne_of_gt hb)),
      if_neg (not_lt.mpr hb.le)]
    simp [Except.map]

/-- The day-count formula at a negative compounding base: no exception,
Python computes the principal-branch complex power. -/
theorem fv_formula_neg_base (pv r : ℝ) (s e : ℤ) (hr0 : r ≠ 0)
    (hb : 1 + r / 100 < 0) :
    calculate_future_value_excel_formula pv r s e =
      .ok ((pv : ℂ) *
        (((1 + r / 100 : ℝ) : ℂ) ^ ((((e - s : ℤ) : ℝ) / 365 : ℝ) : ℂ))) := by
  unfold calculate_future_value_excel_formula
  rw [if_neg hr0]
  dsimp only
  unfold pyFloatPow
  rw [if_neg (by push_neg; intro hb0; exact absurd hb0 (ne_of_lt hb)),
    if_pos hb]
  simp [Except.map]

/-- The engine result when the portfolio formula and cashflow loop both
succeed. -/
theorem calculate_scenario_excel_ok
    (mv : ℝ) (s e : ℤ) (rate : ℝ) (cfs : List CashflowItem) (name : String)
    (z w : ℂ)
    (hf : calculate_future_value_excel_formula mv rate s e = .ok z)
    (hc : cashflowFVLoop cfs rate e 0 = .ok w) :
    calculate_scenario_excel mv s e rate cfs name =
      .ok { portfolio_fv := z, cashflow_fv := w, total_fv := z + w,
            rate := rate, scenario_name := name, cashflow_details := none } := by
  unfold calculate_scenario_excel
  rw [hf, hc]

/-- The scenario attempt result when the portfolio formula succeeds. -/
theorem scenarioAttempt_ok
    (mv : ℝ) (s e : ℤ) (rate : ℝ) (name : String)
    (ds : List CashflowFVItem) (z : ℂ)
    (hf : calculate_future_value_excel_formula mv rate s e = .ok z) :
    scenarioAttempt mv s e rate name ds =
      .ok { portfolio_fv := z, cashflow_fv := scenarioCashflowSum name ds 0,
            total_fv := z + scenarioCashflowSum name ds 0,
            rate := rate, scenario_name := name,
            cashflow_details := some ds } := by
  unfold scenarioAttempt
  rw [hf]

/-- Unfolding step of the scenario loop when the attempt succeeds. -/
theorem scenariosLoop_cons_ok
    (mv : ℝ) (s e : ℤ) (ds : List CashflowFVItem) (name : String) (rate : ℝ)
    (rest : List (String × ℝ)) (acc : List (String × ScenarioResult))
    (r : ScenarioResult)
    (h : scenarioAttempt mv s e rate name ds = .ok r) :
    scenariosLoop mv s e ds ((name, rate) :: rest) acc =
      scenariosLoop mv s e ds rest (acc ++ [(name, r)]) := by
  conv_lhs => unfold scenariosLoop
  rw [h]

/-- Unfolding step of the scenario loop when the attempt raises: the
scenario is skipped. -/
theorem scenariosLoop_cons_err
    (mv : ℝ) (s e : ℤ) (ds : List CashflowFVItem) (name : String) (rate : ℝ)
    (rest : List (String × ℝ)) (acc : List (String × ScenarioResult))
    (err : PyErr)
    (h : scenarioAttempt mv s e rate name ds = .error err) :
    scenariosLoop mv s e ds ((name, rate) :: rest) acc =
      scenariosLoop mv s e ds rest acc := by
  conv_lhs => unfold scenariosLoop
  rw [h]

/-- Every entry of the scenario loop's output is either already in the
accumulator or the successful attempt of some rate under its own name. -/
theorem scenariosLoop_mem
    (mv : ℝ) (s e : ℤ) (ds : List CashflowFVItem) :
    ∀ (scenarios : List (String × ℝ)) (acc : List (String × ScenarioResult))
      (p : String × ScenarioResult),
      p ∈ scenariosLoop mv s e ds scenarios acc →
      p ∈ acc ∨ ∃ rate, scenarioAttempt mv s e rate p.1 ds = .ok p.2 := by
  intro scenarios
  induction scenarios with
  | nil => intro acc p hp; exact Or.inl hp
  | cons q rest ih =>
    intro acc p hp
    obtain ⟨name, rate⟩ := q
    cases hA : scenarioAttempt mv s e rate name ds with
    | error err =>
      rw [scenariosLoop_cons_err mv s e ds name rate rest acc err hA] at hp
      exact ih acc p hp
    | ok r =>
      rw [scenariosLoop_cons_ok mv s e ds name rate rest acc r hA] at hp
      rcases ih _ p hp with hacc | hok
      · rcases List.mem_append.mp hacc with h1 | h2
        · exact Or.inl h1
        · right
          have hpr : p = (name, r) := by simpa using h2
          subst hpr
          exact ⟨rate, hA⟩
      · exact Or.inr hok

/-- The accumulator form of the per-scenario cashflow total: it is the
sum of the per-projection future values selected by the scenario name. -/
theorem scenarioCashflowSum_eq (name : String) :
    ∀ (ds : List CashflowFVItem) (acc : ℂ),
      scenarioCashflowSum name ds acc =
        acc + (ds.map (projectionFV name)).sum := by
  intro ds
  induction ds with
  | nil => intro acc; simp [scenarioCashflowSum]
  | cons d rest ih =>
    intro acc
    simp only [List.map_cons, List.sum_cons]
    unfold scenarioCashflowSum
    split_ifs with h1 h2 h3
    · rw [ih]; simp [projectionFV, h1]; ring
    · rw [ih]; simp [projectionFV, h1, h2]; ring
    · rw [ih]; simp [projectionFV, h1, h2, h3]; ring
    · rw [ih]; simp [projectionFV, h1, h2, h3]

/-- Inversion of a successful scenario attempt: the fields of the
produced result. -/
theorem scenarioAttempt_inv
    (mv : ℝ) (s e : ℤ) (rate : ℝ) (name : String) (ds : List CashflowFVItem)
    (r : ScenarioResult)
    (h : scenarioAttempt mv s e rate name ds = .ok r) :
    r.total_fv = r.portfolio_fv + r.cashflow_fv ∧
    r.cashflow_details = some ds ∧
    r.cashflow_fv = scenarioCashflowSum name ds 0 := by
  unfold scenarioAttempt at h
  cases hf : calculate_future_value_excel_formula mv rate s e with
  | error err => rw [hf] at h; exact Except.noConfusion h
  | ok z =>
    rw [hf] at h
    injection h with h
    subst h
    exact ⟨rfl, rfl, rfl⟩

/-- Inversion of a successful engine run: additivity of the result. -/
theorem calculate_scenario_excel_inv
    (mv : ℝ) (s e : ℤ) (rate : ℝ) (cfs : List CashflowItem) (name : String)
    (r : ScenarioResult)
    (h : calculate_scenario_excel mv s e rate cfs name = .ok r) :
    r.total_fv = r.portfolio_fv + r.cashflow_fv := by
  unfold calculate_scenario_excel at h
  cases hf : calculate_future_value_excel_formula mv rate s e with
  | error err => rw [hf] at h; exact Except.noConfusion h
  | ok z =>
    rw [hf] at h
    cases hc : cashflowFVLoop cfs rate e 0 with
    | error err => rw [hc] at h; exact Except.noConfusion h
    | ok w =>
      rw [hc] at h
      injection h with h
      subst h
      rfl

/-- Inversion of a successful orchestrator run: every named entry of the
result mapping comes from a successful attempt against the shared
itemisation. -/
theorem calculate_all_scenarios_excel_inv
    (mv : ℝ) (s e : ℤ) (scenarios : List (String × ℝ))
    (cfs : List CashflowItem) (l : List (String × ScenarioResult))
    (name : String) (r : ScenarioResult)
    (h : calculate_all_scenarios_excel mv s e scenarios cfs = .ok l)
    (hm : (name, r) ∈ l) :
    ∃ ds rate, cashflowDetailsLoop cfs scenarios e [] = .ok ds ∧
      scenarioAttempt mv s e rate name ds = .ok r := by
  unfold calculate_all_scenarios_excel at h
  cases hds : cashflowDetailsLoop cfs scenarios e [] with
  | error err => rw [hds] at h; exact Except.noConfusion h
  | ok ds =>
    rw [hds] at h
    injection h with h
    subst h
    rcases scenariosLoop_mem mv s e ds scenarios [] (name, r) hm with h0 | ⟨rate, hA⟩
    · exact absurd h0 (List.not_mem_nil _)
    · exact ⟨ds, rate, rfl, hA⟩

/-- Claim C1: the day-count compounding function returns `present_value`
unchanged when the annual rate is 0; for a nonzero rate it returns
`present_value` times the host-language power of `1 + rate/100` to the
exact day difference `(end_date - start_date)` over the fixed 365-day
year, which on the domain `-100 < rate` (positive base) is exactly the
real power `pv * (1 + rate/100) ^ (days / 365)`. -/
theorem C1_day_count_compounding (pv r : ℝ) (s e : ℤ) :
    (r = 0 → calculate_future_value_excel_formula pv r s e = .ok ((pv : ℝ) : ℂ)) ∧
    (r ≠ 0 → calculate_future_value_excel_formula pv r s e =
      (pyFloatPow (1 + r / 100) (((e - s : ℤ) : ℝ) / 365)).map
        (fun p => (pv : ℂ) * p)) ∧
    (-100 < r → calculate_future_value_excel_formula pv r s e =
      .ok (((pv * (1 + r / 100) ^ (((e - s : ℤ) : ℝ) / 365) : ℝ)) : ℂ)) := by
  refine ⟨?_, ?_, ?_⟩
  · intro h0
    subst h0
    unfold calculate_future_value_excel_formula
    rw [if_pos rfl]
  · intro hne
    unfold calculate_future_value_excel_formula
    rw [if_neg hne]
  · intro h
    exact fv_formula_pos_base pv r s e h

/-- Witness for C1 at concrete inputs: rate 0 returns the present value,
rate 7 over a 365-day window returns the real-power formula value. -/
theorem C1_day_count_compounding_witness :
    calculate_future_value_excel_formula 5 0 0 365 = .ok ((5 : ℝ) : ℂ) ∧
    calculate_future_value_excel_formula 5 7 0 365 =
      (pyFloatPow (1 + 7 / 100) (((365 - 0 : ℤ) : ℝ) / 365)).map
        (fun p => ((5 : ℝ) : ℂ) * p) ∧
    calculate_future_value_excel_formula 5 7 0 365 =
      .ok (((5 * (1 + 7 / 100) ^ (((365 - 0 : ℤ) : ℝ) / 365) : ℝ)) : ℂ) :=
  ⟨(C1_day_count_compounding 5 0 0 365).1 rfl,
   (C1_day_count_compounding 5 7 0 365).2.1 (by norm_num),
   (C1_day_count_compounding 5 7 0 365).2.2 (by norm_num)⟩

/-- Claim C7: a dated cashflow whose occurrence date is on or after the
period end date is valued at exactly its amount, for every rate. -/
theorem C7_horizon_clamp (amount : ℝ) (month : ℤ) (description : String)
    (d : ℤ) (annual_rate : ℝ) (end_date : ℤ) (h : end_date ≤ d) :
    calculate_cashflow_future_value_excel
      ⟨amount, month, description, some d⟩ annual_rate end_date =
      .ok ((amount : ℝ) : ℂ) := by
  show (if end_date ≤ d then (.ok ((amount : ℝ) : ℂ) : Except PyErr ℂ)
        else calculate_future_value_excel_formula amount annual_rate d end_date) =
      .ok ((amount : ℝ) : ℂ)
  rw [if_pos h]

/-- Witness for C7: a cashflow dated exactly on the horizon end keeps its
amount under a 7% rate. -/
theorem C7_horizon_clamp_witness :
    calculate_cashflow_future_value_excel
      ⟨100, 3, "Q1 Dividend Payment", some 10⟩ 7 10 = .ok ((100 : ℝ) : ℂ) :=
  C7_horizon_clamp 100 3 "Q1 Dividend Payment" 10 7 10 (le_refl 10)

/-- Claim C9: a cashflow with no `cashflow_date` is returned at its raw
amount for every rate and every end date (the `if not
cashflow.cashflow_date` fallback). -/
theorem C9_dateless_cashflow (amount : ℝ) (month : ℤ) (description : String)
    (annual_rate : ℝ) (end_date : ℤ) :
    calculate_cashflow_future_value_excel
      ⟨amount, month, description, none⟩ annual_rate end_date =
      .ok ((amount : ℝ) : ℂ) := rfl

/-- Claim C4, code behaviour: at rate -100 and a positive 182-day period
the compounding function returns the value 0 — it does not fail; no
`DomainError` is raised anywhere in the code. -/
theorem C4_no_domain_error_at_minus_100 :
    calculate_future_value_excel_formula 1000 (-100) 0 182 =
      .ok ((0 : ℝ) : ℂ) := by
  have hb : (1 : ℝ) + -100 / 100 = 0 := by norm_num
  have he : (((182 - 0 : ℤ) : ℝ) / 365) ≠ 0 := by norm_num
  unfold calculate_future_value_excel_formula
  rw [if_neg (by norm_num : ¬((-100 : ℝ) = 0))]
  dsimp only
  unfold pyFloatPow
  rw [if_neg (fun hc => absurd hc.2 (by norm_num)),
    if_neg (by rw [hb]; exact lt_irrefl 0)]
  simp [Except.map, hb, Real.zero_rpow he]

/-- Claim C5: every `ScenarioResult` produced by the engine or by the
orchestrator satisfies
`total_fv = portfolio_fv + cashflow_fv` exactly, by construction. -/
theorem C5_total_additivity
    (mv : ℝ) (s e : ℤ) (rate : ℝ) (cfs : List CashflowItem) (name : String)
    (scenarios : List (String × ℝ)) (r : ScenarioResult)
    (l : List (String × ScenarioResult)) :
    (calculate_scenario_excel mv s e rate cfs name = .ok r →
      r.total_fv = r.portfolio_fv + r.cashflow_fv) ∧
    (calculate_all_scenarios_excel mv s e scenarios cfs = .ok l →
      (name, r) ∈ l → r.total_fv = r.portfolio_fv + r.cashflow_fv) := by
  constructor
  · exact fun h => calculate_scenario_excel_inv mv s e rate cfs name r h
  · intro h hm
    obtain ⟨ds, rate2, _, hA⟩ :=
      calculate_all_scenarios_excel_inv mv s e scenarios cfs l name r h hm
    exact (scenarioAttempt_inv mv s e rate2 name ds r hA).1

/-- Witness for C5: a concrete zero-rate engine run with no cashflows. -/
theorem C5_total_additivity_witness :
    (ScenarioResult.mk ((100 : ℝ) : ℂ) 0 (((100 : ℝ) : ℂ) + 0) 0 "base" none).total_fv =
      (ScenarioResult.mk ((100 : ℝ) : ℂ) 0 (((100 : ℝ) : ℂ) + 0) 0 "base" none).portfolio_fv +
      (ScenarioResult.mk ((100 : ℝ) : ℂ) 0 (((100 : ℝ) : ℂ) + 0) 0 "base" none).cashflow_fv :=
  (C5_total_additivity 100 0 365 0 [] "base" []
      (ScenarioResult.mk ((100 : ℝ) : ℂ) 0 (((100 : ℝ) : ℂ) + 0) 0 "base" none) []).1
    (calculate_scenario_excel_ok 100 0 365 0 [] "base" ((100 : ℝ) : ℂ) 0
      (by unfold calculate_future_value_excel_formula; rw [if_pos rfl]) rfl)

/-- Claim C6: for every scenario present in the orchestrator's result
mapping, the sum over the shared per-cashflow projection list of the
future values selected for that scenario equals the scenario's reported
`cashflow_fv`. -/
theorem C6_cross_scenario_consistency
    (mv : ℝ) (s e : ℤ) (scenarios : List (String × ℝ))
    (cfs : List CashflowItem) (l : List (String × ScenarioResult))
    (name : String) (r : ScenarioResult) (ds : List CashflowFVItem)
    (h : calculate_all_scenarios_excel mv s e scenarios cfs = .ok l)
    (hm : (name, r) ∈ l) (hds : r.cashflow_details = some ds) :
    (ds.map (projectionFV name)).sum = r.cashflow_fv := by
  obtain ⟨ds2, rate, _, hA⟩ :=
    calculate_all_scenarios_excel_inv mv s e scenarios cfs l name r h hm
  obtain ⟨_, hdet, hsum⟩ := scenarioAttempt_inv mv s e rate name ds2 r hA
  rw [hdet] at hds
  injection hds with hds
  subst hds
  rw [hsum, scenarioCashflowSum_eq]
  simp

/-- Witness for C6: a concrete one-scenario, zero-cashflow orchestrator
run; the (empty) projection sum equals the reported cashflow total. -/
theorem C6_cross_scenario_consistency_witness :
    (List.map (projectionFV "base") []).sum =
      (ScenarioResult.mk ((100 : ℝ) : ℂ) 0 (((100 : ℝ) : ℂ) + 0) 0 "base"
        (some [])).cashflow_fv := by
  have hf : calculate_future_value_excel_formula 100 0 0 365 = .ok ((100 : ℝ) : ℂ) := by
    unfold calculate_future_value_excel_formula
    rw [if_pos rfl]
  have hA := scenarioAttempt_ok 100 0 365 0 "base" [] ((100 : ℝ) : ℂ) hf
  have horch : calculate_all_scenarios_excel 100 0 365 [("base", 0)] [] =
      .ok [("base", ScenarioResult.mk ((100 : ℝ) : ℂ) 0 (((100 : ℝ) : ℂ) + 0) 0 "base"
        (some []))] := by
    unfold calculate_all_scenarios_excel
    show Except.ok (scenariosLoop 100 0 365 [] [("base", 0)] []) = _
    rw [scenariosLoop_cons_ok 100 0 365 [] "base" 0 [] [] _ hA]
    rfl
  exact C6_cross_scenario_consistency 100 0 365 [("base", 0)] [] _ "base" _ []
    horch (by simp) rfl

/-- Claim C8: for fixed positive present value and a positive day span,
the day-count future value is strictly increasing in the annual rate over
the domain `-100 < rate`, uniformly across the zero-rate branch. -/
theorem C8_rate_monotonicity (pv r₁ r₂ : ℝ) (s e : ℤ)
    (hpv : 0 < pv) (hse : s < e) (h₁ : -100 < r₁) (h₁₂ : r₁ < r₂) :
    ∃ v₁ v₂ : ℝ,
      calculate_future_value_excel_formula pv r₁ s e = .ok ((v₁ : ℝ) : ℂ) ∧
      calculate_future_value_excel_formula pv r₂ s e = .ok ((v₂ : ℝ) : ℂ) ∧
      v₁ < v₂ := by
  have h₂ : -100 < r₂ := lt_trans h₁ h₁₂
  refine ⟨pv * (1 + r₁ / 100) ^ (((e - s : ℤ) : ℝ) / 365),
    pv * (1 + r₂ / 100) ^ (((e - s : ℤ) : ℝ) / 365),
    fv_formula_pos_base pv r₁ s e h₁, fv_formula_pos_base pv r₂ s e h₂, ?_⟩
  have hb₁ : (0 : ℝ) < 1 + r₁ / 100 := by linarith
  have hb₁₂ : 1 + r₁ / 100 < 1 + r₂ / 100 := by linarith
  have hd : (0 : ℝ) < ((e - s : ℤ) : ℝ) / 365 := by
    have h1 : (1 : ℤ) ≤ e - s := by omega
    have h2 : (1 : ℝ) ≤ ((e - s : ℤ) : ℝ) := by exact_mod_cast h1
    linarith
  exact mul_lt_mul_of_pos_left (Real.rpow_lt_rpow hb₁.le hb₁₂ hd) hpv

/-- Witness for C8: rates 0 and 100 over a 365-day window at unit present
value. -/
theorem C8_rate_monotonicity_witness :
    (0 : ℝ) < 1 ∧ (0 : ℤ) < 365 ∧ (-100 : ℝ) < 0 ∧ (0 : ℝ) < 100 ∧
    ∃ v₁ v₂ : ℝ,
      calculate_future_value_excel_formula 1 0 0 365 = .ok ((v₁ : ℝ) : ℂ) ∧
      calculate_future_value_excel_formula 1 100 0 365 = .ok ((v₂ : ℝ) : ℂ) ∧
      v₁ < v₂ :=
  ⟨by norm_num, by norm_num, by norm_num, by norm_num,
   C8_rate_monotonicity 1 0 100 0 365 (by norm_num) (by norm_num)
     (by norm_num) (by norm_num)⟩

/-- Claim C10: the legacy monthly path invoked by the app's calculate
callback returns the present value at rate 0 and otherwise
`pv * (1 + rate/100/12) ^ months`; at pv 1, rate 100, the 12-month legacy
value differs from the day-count value over the matching 365-day window
(which is exactly 2). -/
theorem C10_legacy_monthly_path (pv r : ℝ) (m : ℕ) :
    (r = 0 → calculate_future_value pv r m = pv) ∧
    (r ≠ 0 → calculate_future_value pv r m = pv * (1 + r / 100 / 12) ^ m) ∧
    (calculate_future_value_excel_formula 1 100 0 365 = .ok ((2 : ℝ) : ℂ) ∧
     calculate_future_value 1 100 12 ≠ 2) := by
  refine ⟨?_, ?_, ?_, ?_⟩
  · intro h0
    subst h0
    unfold calculate_future_value
    rw [if_pos rfl]
  · intro hne
    unfold calculate_future_value
    rw [if_neg hne]
  · have hexp : (((365 - 0 : ℤ) : ℝ) / 365) = 1 := by norm_num
    rw [fv_formula_pos_base 1 100 0 365 (by norm_num), hexp, Real.rpow_one]
    norm_num
  · unfold calculate_future_value
    rw [if_neg (by norm_num : ¬((100 : ℝ) = 0))]
    dsimp only
    norm_num

/-- Witness for C10: the zero-rate branch and the monthly formula at
concrete inputs. -/
theorem C10_legacy_monthly_path_witness :
    calculate_future_value 5 0 7 = 5 ∧
    calculate_future_value 5 7 12 = 5 * (1 + 7 / 100 / 12) ^ 12 :=
  ⟨(C10_legacy_monthly_path 5 0 7).1 rfl,
   (C10_legacy_monthly_path 5 7 12).2.1 (by norm_num)⟩

/-- Claim C3, counterexample: called directly with `start_date =
end_date` (an invalid period) the engine does not fail — it returns a
normal result, compounding over zero elapsed days. -/
theorem C3_engine_accepts_equal_dates :
    calculate_scenario_excel 1000 50 50 7 [] "base" =
      .ok (ScenarioResult.mk ((1000 : ℝ) : ℂ) 0 (((1000 : ℝ) : ℂ) + 0) 7
        "base" none) := by
  have hexp : (((50 - 50 : ℤ) : ℝ) / 365) = 0 := by norm_num
  have hf : calculate_future_value_excel_formula 1000 7 50 50 =
      .ok ((1000 : ℝ) : ℂ) := by
    rw [fv_formula_pos_base 1000 7 50 50 (by norm_num), hexp, Real.rpow_zero]
    norm_num
  exact calculate_scenario_excel_ok 1000 50 50 7 [] "base" ((1000 : ℝ) : ℂ) 0 hf rfl

/-- Claim C3 (amended): the `start_date >= end_date` rejection lives in
the application-layer validator, not in the engine — for every input with
`start_date >= end_date` the validator reports the error string and marks
the input invalid, for any current date and group code. -/
theorem C3_validator_rejects_inverted_dates
    (today : ℤ) (gc : Option String) (s e : ℤ) (h : e ≤ s) :
    "Start date must be before end date" ∈
      (validate_date_inputs today gc (some s) (some e)).errors ∧
    (validate_date_inputs today gc (some s) (some e)).valid = false := by
  have hmem : "Start date must be before end date" ∈
      (validate_date_inputs today gc (some s) (some e)).errors := by
    unfold validate_date_inputs
    simp [h]
  refine ⟨hmem, ?_⟩
  have hstep : ∀ (l : List String), "Start date must be before end date" ∈ l →
      l.isEmpty = false := by
    intro l hl
    cases l with
    | nil => cases hl
    | cons a rest => rfl
  exact hstep ((validate_date_inputs today gc (some s) (some e)).errors) hmem

/-- Witness for C3 (amended): concrete inverted dates are flagged. -/
theorem C3_validator_rejects_inverted_dates_witness :
    "Start date must be before end date" ∈
      (validate_date_inputs 0 (some "G1") (some 5) (some 3)).errors ∧
    (validate_date_inputs 0 (some "G1") (some 5) (some 3)).valid = false :=
  C3_validator_rejects_inverted_dates 0 (some "G1") 5 3 (by norm_num)

/-- Claim C2, code behaviour: with rates downside -150, base 7, upside 15
over a 182-day window (and no cashflows), no scenario computation fails —
Python computes a complex number for the downside — so the returned
mapping holds all three keys, `downside` included, and nothing is
raised. -/
theorem C2_downside_not_omitted :
    (calculate_all_scenarios_excel 1000000 0 182
        [("downside", -150), ("base", 7), ("upside", 15)] []).map
      (fun l => l.map Prod.fst) = .ok ["downside", "base", "upside"] := by
  have hd := fv_formula_neg_base 1000000 (-150) 0 182 (by norm_num) (by norm_num)
  have hb := fv_formula_pos_base 1000000 7 0 182 (by norm_num)
  have hu := fv_formula_pos_base 1000000 15 0 182 (by norm_num)
  have hAd := scenarioAttempt_ok 1000000 0 182 (-150) "downside" [] _ hd
  have hAb := scenarioAttempt_ok 1000000 0 182 7 "base" [] _ hb
  have hAu := scenarioAttempt_ok 1000000 0 182 15 "upside" [] _ hu
  unfold calculate_all_scenarios_excel
  show (Except.ok (scenariosLoop 1000000 0 182 []
      [("downside", -150), ("base", 7), ("upside", 15)] [])).map
    (fun l => l.map Prod.fst) = .ok ["downside", "base", "upside"]
  rw [scenariosLoop_cons_ok 1000000 0 182 [] "downside" (-150) _ _ _ hAd,
    scenariosLoop_cons_ok 1000000 0 182 [] "base" 7 _ _ _ hAb,
    scenariosLoop_cons_ok 1000000 0 182 [] "upside" 15 _ _ _ hAu]
  rfl
